import Mathlib

/-!
Verification of the AVA assistant core against its natural-language
specification.  The Python sources are shallowly embedded: Python dict /
list / scalar values become the inductive type `PVal`; functions that can
raise become `Except String`-valued functions whose error component is the
raised exception's message; module-level state (plugin registry, session
blacklist, on-disk manifests) is passed explicitly.

External collaborators (the Python standard library's `ast` parser, the
`re` regex engine, `json` codec, the clock, the HTTP client) are either
given as explicit function parameters of the embedded definitions or, for
the concrete expressions exercised by individual theorems, supplied as
finite tables whose entries record the collaborator's documented output.
-/

/-- Python runtime values, restricted to the JSON-like fragment the program
manipulates: `None`, booleans, integers, floats (modelled as exact
rationals), strings, lists, and dicts (modelled as insertion-ordered
association lists; the program never builds duplicate keys). -/
inductive PVal where
  | null
  | bool (b : Bool)
  | int (n : Int)
  | num (q : Rat)
  | str (s : String)
  | list (xs : List PVal)
  | obj (kvs : List (String × PVal))
  deriving Repr

/-- Python truthiness (`bool(v)`) on the modelled value fragment. -/
def pyTruthy : PVal → Bool
  | .null => false
  | .bool b => b
  | .int n => n != 0
  | .num q => q != 0
  | .str s => s != ""
  | .list xs => !xs.isEmpty
  | .obj kvs => !kvs.isEmpty

/-- Python `d.get(key)` on a dict: `None` when the key is absent. -/
def pyGet (kvs : List (String × PVal)) (key : String) : PVal :=
  match kvs.lookup key with
  | some v => v
  | none => .null

/-- Python `d.get(key, default)` on a dict. -/
def pyGetD (kvs : List (String × PVal)) (key : String) (dflt : PVal) : PVal :=
  match kvs.lookup key with
  | some v => v
  | none => dflt

/-- Python `d[key] = v`: replace the value in place if the key exists,
otherwise append the pair (dicts preserve insertion order). -/
def pySetKey (kvs : List (String × PVal)) (key : String) (v : PVal) :
    List (String × PVal) :=
  match kvs with
  | [] => [(key, v)]
  | (k, w) :: rest =>
      if k = key then (k, v) :: rest else (k, w) :: pySetKey rest key v

/-- Characters stripped by Python's `str.strip()` (ASCII whitespace; the
concrete inputs of this development contain no other whitespace). -/
def pyIsSpace (c : Char) : Bool :=
  c = ' ' || c = '\t' || c = '\n' || c = '\r' || c = '\x0b' || c = '\x0c'

/-- Python `s.strip()`. -/
def pyStrip (s : String) : String :=
  String.mk ((s.data.dropWhile pyIsSpace).reverse.dropWhile pyIsSpace |>.reverse)

/-- Check that `needle` occurs at the head of `hay`. -/
def strStarts : List Char → List Char → Bool
  | [], _ => true
  | _ :: _, [] => false
  | a :: as, b :: bs => a == b && strStarts as bs

/-- Python `needle in hay` on strings: substring containment. -/
def pyInStr (needle hay : String) : Bool :=
  (List.range (hay.data.length + 1)).any fun i =>
    strStarts needle.data (hay.data.drop i)

/-
Embedding of `src/avaai/tools.py`, `_safe_eval` (lines 7-34).

Python parses the expression with `ast.parse(expression, mode="eval")` and
walks the resulting tree.  The AST fragment relevant to the checker is
embedded below.  Note that `ast.walk` yields *every* node, including the
bare operator nodes stored in `BinOp.op` / `UnaryOp.op` (`ast.Add()`,
`ast.Pow()`, ...), which carry no fields of their own.
-/

/-- Constants a Python `ast.Constant` node can carry in this fragment.
Python `bool` is a subclass of `int`, so the magnitude check of
`_safe_eval` also applies to boolean constants. -/
inductive PyConst where
  | intC (n : Int)
  | floatC (q : Rat)
  | strC (s : String)
  | boolC (b : Bool)
  | noneC
  deriving Repr, DecidableEq

/-- Binary operator kinds appearing in `_safe_eval`'s allow-list. -/
inductive BinOpK where
  | add | sub | mult | div | mod | pow | floordiv
  deriving Repr, DecidableEq

/-- Unary operator kinds: `USub` is the only one in the allow-list; `UAdd`
is representative of the rejected ones. -/
inductive UnOpK where
  | usub | uadd
  deriving Repr, DecidableEq

/-- Python expression AST (`mode="eval"` body), restricted to the node
kinds the claims exercise: constants, names, attribute access, calls, and
unary/binary operations. -/
inductive PyExpr where
  | konst (c : PyConst)
  | name (s : String)
  | attr (v : PyExpr) (a : String)
  | call (f : PyExpr) (args : List PyExpr)
  | binop (l : PyExpr) (op : BinOpK) (r : PyExpr)
  | unop (op : UnOpK) (e : PyExpr)
  deriving Repr

/-- Node classifications seen by the `ast.walk` loop of `_safe_eval`:
expression nodes plus the bare operator and context marker nodes. -/
inductive PyNode where
  | constant (c : PyConst)
  | nameN
  | attrN
  | callN
  | binopN
  | unaryopN
  | opN (op : BinOpK)
  | uopN (op : UnOpK)
  | loadN
  deriving Repr, DecidableEq

mutual

/-- Nodes of an expression tree, in preorder.  `ast.walk` enumerates the
same set of nodes in breadth-first order; since `_safe_eval` only asks
whether *some* node violates a check, the traversal order affects at most
which violation is reported, never whether one exists. -/
def pyNodes : PyExpr → List PyNode
  | .konst c => [.constant c]
  | .name _ => [.nameN, .loadN]
  | .attr v _ => .attrN :: (pyNodes v ++ [.loadN])
  | .call f args => .callN :: (pyNodes f ++ pyNodesList args)
  | .binop l op r => .binopN :: (pyNodes l ++ .opN op :: pyNodes r)
  | .unop op e => .unaryopN :: .uopN op :: pyNodes e

/-- Nodes of a list of argument expressions, in order. -/
def pyNodesList : List PyExpr → List PyNode
  | [] => []
  | e :: es => pyNodes e ++ pyNodesList es

end

/-- Per-node check of the `ast.walk` loop in `_safe_eval` (tools.py
lines 21-33).  A node outside the allow-list raises
`ValueError("Unsupported expression")`; an `int`/`float`/`bool` constant
of magnitude above `1_000_000` raises `ValueError("Number too large")`;
and a bare `ast.Pow` operator node makes `exponent = child.right` raise
`AttributeError` because operator nodes have no `right` field (the
subsequent `> 8` exponent comparison is therefore unreachable). -/
def checkNode : PyNode → Except String Unit
  | .constant c =>
      match c with
      | .intC n => if 1000000 < n.natAbs then .error "Number too large" else .ok ()
      | .floatC q => if 1000000 < |q| then .error "Number too large" else .ok ()
      | .boolC _ => .ok ()
      | .strC _ => .ok ()
      | .noneC => .ok ()
  | .nameN => .error "Unsupported expression"
  | .attrN => .error "Unsupported expression"
  | .callN => .error "Unsupported expression"
  | .binopN => .ok ()
  | .unaryopN => .ok ()
  | .opN op =>
      match op with
      | .pow => .error "'Pow' object has no attribute 'right'"
      | _ => .ok ()
  | .uopN op =>
      match op with
      | .usub => .ok ()
      | .uadd => .error "Unsupported expression"
  | .loadN => .ok ()

/-- Run `checkNode` over a node list, stopping at the first failure. -/
def checkNodes : List PyNode → Except String Unit
  | [] => .ok ()
  | n :: ns =>
      match checkNode n with
      | .error e => .error e
      | .ok _ => checkNodes ns

/-- The whole `ast.walk` validation loop of `_safe_eval`. -/
def walkCheck (e : PyExpr) : Except String Unit :=
  checkNodes (pyNodes e)

/-- Numeric view used by the evaluation step: Python promotes `bool` and
`int` to `float` when mixed with a `float`. -/
inductive PyNum where
  | i (n : Int)
  | f (q : Rat)
  deriving Repr

/-- Numeric coercion of a value, `none` for non-numeric operands. -/
def toNum : PVal → Option PyNum
  | .int n => some (.i n)
  | .bool b => some (.i (if b then 1 else 0))
  | .num q => some (.f q)
  | _ => none

/-- Binary arithmetic of Python's evaluator on numbers.  `/` always yields
a float; `//` and `%` use floor semantics (sign of the divisor); division
by zero raises `ZeroDivisionError`.  Floats are exact rationals here; no
theorem of this development evaluates an expression whose Python result
depends on binary floating-point rounding. -/
def numBinOp (op : BinOpK) (a b : PyNum) : Except String PVal :=
  match op, a, b with
  | .add, .i x, .i y => .ok (.int (x + y))
  | .sub, .i x, .i y => .ok (.int (x - y))
  | .mult, .i x, .i y => .ok (.int (x * y))
  | .div, .i x, .i y =>
      if y = 0 then .error "division by zero" else .ok (.num ((x : Rat) / (y : Rat)))
  | .mod, .i x, .i y =>
      if y = 0 then .error "integer modulo by zero" else .ok (.int (Int.fmod x y))
  | .floordiv, .i x, .i y =>
      if y = 0 then .error "integer division by zero" else .ok (.int (Int.fdiv x y))
  | .pow, .i x, .i y =>
      if 0 ≤ y then .ok (.int (x ^ y.toNat))
      else if x = 0 then .error "0.0 cannot be raised to a negative power"
      else .ok (.num ((x : Rat) ^ y))
  | op, a, b =>
      let x := match a with | .i n => (n : Rat) | .f q => q
      let y := match b with | .i n => (n : Rat) | .f q => q
      match op with
      | .add => .ok (.num (x + y))
      | .sub => .ok (.num (x - y))
      | .mult => .ok (.num (x * y))
      | .div => if y = 0 then .error "float division by zero" else .ok (.num (x / y))
      | .mod =>
          if y = 0 then .error "float modulo" else .ok (.num (x - y * ⌊x / y⌋))
      | .floordiv =>
          if y = 0 then .error "float floor division by zero"
          else .ok (.num (⌊x / y⌋ : Int))
      | .pow =>
          if (y : Rat).den = 1 then
            if 0 ≤ (y : Rat).num then .ok (.num (x ^ (y : Rat).num.toNat))
            else if x = 0 then .error "0.0 cannot be raised to a negative power"
            else .ok (.num (x ^ (y : Rat).num))
          else .error "non-integer power (unreachable: Pow is rejected by walkCheck)"

/-- Evaluation step of `_safe_eval` (`eval(compile(node, ...), {"__builtins__": {}})`)
on checked trees.  Branches for node kinds that `walkCheck` rejects
(names, attributes, calls) model the exception Python's `eval` would
raise with empty builtins; they are unreachable through `safe_eval`. -/
def evalAst : PyExpr → Except String PVal
  | .konst c =>
      .ok (match c with
        | .intC n => .int n
        | .floatC q => .num q
        | .strC s => .str s
        | .boolC b => .bool b
        | .noneC => .null)
  | .name s => .error (String.append (String.append "name '" s) "' is not defined")
  | .attr _ a => .error (String.append "AttributeError: " a)
  | .call _ _ => .error "object is not callable"
  | .binop l op r => do
      let lv ← evalAst l
      let rv ← evalAst r
      match toNum lv, toNum rv with
      | some a, some b => numBinOp op a b
      | _, _ =>
          match op, lv, rv with
          | .add, .str a, .str b => .ok (.str (String.append a b))
          | .mult, .str a, .int n =>
              .ok (.str (String.join (List.replicate n.toNat a)))
          | .mult, .int n, .str a =>
              .ok (.str (String.join (List.replicate n.toNat a)))
          | _, _, _ => .error "unsupported operand type(s)"
  | .unop op e => do
      let v ← evalAst e
      match op, toNum v with
      | .usub, some (.i n) => .ok (.int (-n))
      | .usub, some (.f q) => .ok (.num (-q))
      | .uadd, some (.i n) => .ok (.int n)
      | .uadd, some (.f q) => .ok (.num q)
      | _, none => .error "bad operand type for unary operator"

/-- Embedding of `_safe_eval` (tools.py lines 7-34).  The stdlib parser
`ast.parse(·, mode="eval")` is an external collaborator and is passed as
the `parse` parameter; a `SyntaxError` it raises is its error component.
The guards run in source order: input type, strip, emptiness, length,
parse, node walk, evaluation. -/
def safe_eval (parse : String → Except String PyExpr) (input : PVal) :
    Except String PVal :=
  match input with
  | .str s =>
      let t := pyStrip s
      if t = "" then .error "Empty expression"
      else if 100 < t.length then .error "Expression too long"
      else
        match parse t with
        | .error e => .error e
        | .ok ast =>
            match walkCheck ast with
            | .error e => .error e
            | .ok _ => evalAst ast
  | _ => .error "Invalid expression"

/-- Outputs of the external stdlib parser `ast.parse(·, mode="eval")` on
the concrete expressions exercised by the theorems of this development
(`2**10` and `2**9` parse to a `BinOp` whose `op` is a bare `Pow` node;
`os.system('x')` parses to a call of an attribute of a name). -/
def pyParseFix : String → Except String PyExpr
  | "2**10" => .ok (.binop (.konst (.intC 2)) .pow (.konst (.intC 10)))
  | "2**9" => .ok (.binop (.konst (.intC 2)) .pow (.konst (.intC 9)))
  | "2**8" => .ok (.binop (.konst (.intC 2)) .pow (.konst (.intC 8)))
  | "os.system('x')" =>
      .ok (.call (.attr (.name "os") "system") [.konst (.strC "x")])
  | "2+3" => .ok (.binop (.konst (.intC 2)) .add (.konst (.intC 3)))
  | "x" => .ok (.name "x")
  | "2000000" => .ok (.konst (.intC 2000000))
  | _ => .error "SyntaxError: input not in the modelled parse table"

/-- The `calculate` branch of `run_tool` (tools.py lines 170-175): any
exception raised by `_safe_eval` is caught and converted into a
`{"status": "error", "message": ...}` result; success yields
`{"result": value}`. -/
def calculate_tool (parse : String → Except String PyExpr) (expression : PVal) :
    PVal :=
  match safe_eval parse expression with
  | .ok v => .obj [("result", v)]
  | .error m => .obj [("status", .str "error"), ("message", .str m)]

/-
Embedding of `src/avaai/plugins/registry.py` and of the tool schema
builder and dispatcher of `src/avaai/tools.py`.
-/

/-- A loaded plugin instance: the attributes `register` reads via
`getattr` (an absent `id` and the empty string coincide under the
`or` fallback), the class name used as fallback key, and the
`run(context)` capability, whose error component models an exception
raised inside the plugin. -/
structure PluginObj where
  id : String
  name : Option String
  version : Option String
  className : String
  run : PVal → Except String PVal

/-- Registry record (`PluginInfo` dataclass, registry.py lines 5-12). -/
structure PluginInfo where
  plugin_id : String
  name : String
  version : String
  enabled : Bool
  description : String
  «instance» : PluginObj

/-- In-memory plugin registry: the `_plugins` dict, keyed by plugin id,
insertion-ordered. -/
def Registry := List (String × PluginInfo)

/-- Python `d[k] = v` on a generic insertion-ordered dict. -/
def assocSet {α : Type} (kvs : List (String × α)) (key : String) (v : α) :
    List (String × α) :=
  match kvs with
  | [] => [(key, v)]
  | (k, w) :: rest =>
      if k = key then (k, v) :: rest else (k, w) :: assocSet rest key v

/-- `PluginRegistry.register` (registry.py lines 19-31): key is the
instance's `id` if non-empty, else the class name; re-registering an id
replaces the prior entry. -/
def Registry.register (reg : Registry) (plugin : PluginObj) (enabled : Bool)
    (description : String) : Registry :=
  let plugin_id := if plugin.id ≠ "" then plugin.id else plugin.className
  let name := plugin.name.getD plugin_id
  let version := plugin.version.getD "0.0.0"
  assocSet reg plugin_id
    { plugin_id := plugin_id, name := name, version := version,
      enabled := enabled, description := description, «instance» := plugin }

/-- `PluginRegistry.get` (registry.py lines 33-34). -/
def Registry.get (reg : Registry) (plugin_id : String) : Option PluginInfo :=
  List.lookup plugin_id reg

/-- `_get_weather_plugin` (tools.py lines 37-45): `None` when the registry
is absent, the id is unregistered, or the runtime `enabled` flag is
cleared. -/
def get_weather_plugin : Option Registry → Option PluginInfo
  | none => none
  | some reg =>
      match reg.get "weather_plugin" with
      | none => none
      | some info => if info.enabled then some info else none

/-- `_get_exchange_rate_plugin` (tools.py lines 48-56). -/
def get_exchange_rate_plugin : Option Registry → Option PluginInfo
  | none => none
  | some reg =>
      match reg.get "exchangerate_plugin" with
      | none => none
      | some info => if info.enabled then some info else none

/-- `_get_wikimedia_plugin` (tools.py lines 59-67). -/
def get_wikimedia_plugin : Option Registry → Option PluginInfo
  | none => none
  | some reg =>
      match reg.get "wikimedia_plugin" with
      | none => none
      | some info => if info.enabled then some info else none

/-- The built-in clock tool declaration (tools.py lines 72-79). -/
def timeToolDef : PVal :=
  .obj [("type", .str "function"),
        ("function", .obj
          [("name", .str "get_current_time"),
           ("description", .str "Get the current server time in ISO format"),
           ("parameters", .obj
             [("type", .str "object"), ("properties", .obj [])])])]

/-- The built-in arithmetic tool declaration (tools.py lines 80-93). -/
def calcToolDef : PVal :=
  .obj [("type", .str "function"),
        ("function", .obj
          [("name", .str "calculate"),
           ("description", .str "Evaluate a simple math expression"),
           ("parameters", .obj
             [("type", .str "object"),
              ("properties", .obj
                [("expression", .obj [("type", .str "string")])]),
              ("required", .list [.str "expression"])])])]

/-- The weather tool declaration (tools.py lines 97-116). -/
def weatherToolDef : PVal :=
  .obj [("type", .str "function"),
        ("function", .obj
          [("name", .str "get_weather"),
           ("description", .str
             "Get today's and tomorrow's forecast plus a weekly temperature overview."),
           ("parameters", .obj
             [("type", .str "object"),
              ("properties", .obj
                [("location", .obj
                   [("type", .str "string"),
                    ("description", .str "City or location name")]),
                 ("language", .obj
                   [("type", .str "string"),
                    ("enum", .list [.str "en", .str "ru"]),
                    ("description", .str "Response language")])])])])]

/-- The exchange-rate tool declaration (tools.py lines 119-136). -/
def exchangeToolDef : PVal :=
  .obj [("type", .str "function"),
        ("function", .obj
          [("name", .str "get_exchange_rate"),
           ("description", .str
             "Get currency exchange rates or convert between two currencies."),
           ("parameters", .obj
             [("type", .str "object"),
              ("properties", .obj
                [("base", .obj
                   [("type", .str "string"),
                    ("description", .str "Base currency code (e.g., USD)")]),
                 ("target", .obj
                   [("type", .str "string"),
                    ("description", .str "Target currency code (e.g., EUR)")]),
                 ("amount", .obj
                   [("type", .str "number"),
                    ("description", .str "Amount in base currency")])]),
              ("required", .list [.str "base"])])])]

/-- The encyclopedia tool declaration (tools.py lines 139-159). -/
def wikiToolDef : PVal :=
  .obj [("type", .str "function"),
        ("function", .obj
          [("name", .str "get_wiki_summary"),
           ("description", .str "Fetch a Wikipedia summary for a query."),
           ("parameters", .obj
             [("type", .str "object"),
              ("properties", .obj
                [("query", .obj
                   [("type", .str "string"),
                    ("description", .str "Search query")]),
                 ("language", .obj
                   [("type", .str "string"),
                    ("enum", .list [.str "en", .str "ru"]),
                    ("description", .str "Response language")])]),
              ("required", .list [.str "query"])])])]

/-- Appending behaviour of each `if <plugin>: tools.append(...)` block of
`get_tools` (tools.py lines 95-159). -/
def optToolList (o : Option PluginInfo) (t : PVal) : List PVal :=
  match o with
  | some _ => [t]
  | none => []

/-- `get_tools` continued: the two built-ins followed, in order, by one
declaration per plugin-backed tool whose plugin lookup succeeded. -/
def get_tools (plugin_registry : Option Registry) : List PVal :=
  [timeToolDef, calcToolDef]
    ++ optToolList (get_weather_plugin plugin_registry) weatherToolDef
    ++ optToolList (get_exchange_rate_plugin plugin_registry) exchangeToolDef
    ++ optToolList (get_wikimedia_plugin plugin_registry) wikiToolDef

/-- Python `v.get(key, default)` on an arbitrary value: raises
`AttributeError` unless the value is a dict. -/
def pvGetD (v : PVal) (key : String) (dflt : PVal) : Except String PVal :=
  match v with
  | .obj kvs => .ok (pyGetD kvs key dflt)
  | _ => .error "AttributeError: 'object' has no attribute 'get'"

/-- Python truthiness-based `a or b`. -/
def pyOr (a b : PVal) : PVal :=
  if pyTruthy a then a else b

/-- Error result dict `{"status": "error", "message": m}`. -/
def errResult (m : String) : PVal :=
  .obj [("status", .str "error"), ("message", .str m)]

/-- `run_tool` (tools.py lines 163-204).  `now` stands for
`datetime.now().isoformat()`; `parse` for the stdlib expression parser;
the error component is a raised exception (`AttributeError` from `.get`
on a non-dict `arguments`, an exception from a plugin's `run`, or the
final `ValueError` for an unknown tool name; rendering of a non-string
name inside that message is not modelled). -/
def run_tool (parse : String → Except String PyExpr) (now : String)
    (name : PVal) (arguments : PVal) (plugin_registry : Option Registry) :
    Except String PVal :=
  match name with
  | .str "get_current_time" => .ok (.obj [("time", .str now)])
  | .str "calculate" => do
      let expression ← pvGetD arguments "expression" (.str "")
      .ok (calculate_tool parse expression)
  | .str "get_weather" =>
      (match get_weather_plugin plugin_registry with
       | none => .ok (errResult "Weather plugin is not available.")
       | some info => do
          let location ← pvGetD arguments "location" .null
          let language ← pvGetD arguments "language" .null
          info.instance.run
            (.obj [("location", pyOr location (.str "New York")),
                   ("language", language)]))
  | .str "get_exchange_rate" =>
      (match get_exchange_rate_plugin plugin_registry with
       | none => .ok (errResult "Exchange rate plugin is not available.")
       | some info => do
          let base ← pvGetD arguments "base" .null
          let target ← pvGetD arguments "target" .null
          let amount ← pvGetD arguments "amount" .null
          info.instance.run
            (.obj [("base", base), ("target", target), ("amount", amount)]))
  | .str "get_wiki_summary" =>
      (match get_wikimedia_plugin plugin_registry with
       | none => .ok (errResult "Wikimedia plugin is not available.")
       | some info => do
          let query ← pvGetD arguments "query" .null
          let language ← pvGetD arguments "language" .null
          info.instance.run (.obj [("query", query), ("language", language)]))
  | .str other => .error (String.append "Unknown tool: " other)
  | _ => .error "Unknown tool: <non-string tool name>"

/-- `tool_call_to_message` (tools.py lines 207-227).  `loads`/`dumps`
stand for the stdlib JSON codec (`loads` errors model
`json.JSONDecodeError`).  A string `arguments` field that fails to parse
falls back to the empty dict; an exception raised by `run_tool` is caught
and converted to an error-result dict; the outer error component is an
exception raised before that boundary (only possible when the tool call's
`function` member exists and is not a dict).  `parseToolArgs` is the
argument-decoding step: a string is JSON-parsed with fallback to the
empty dict, any other value is used as-is. -/
def parseToolArgs (loads : String → Except Unit PVal) (rawArgs : PVal) : PVal :=
  match rawArgs with
  | .str s => (match loads s with | .ok v => v | .error _ => .obj [])
  | v => v

/-- The `try: run_tool ... except Exception` block of
`tool_call_to_message` (tools.py lines 218-221): a raised exception is
converted into an error-result dict. -/
def dispatchToolCall (parse : String → Except String PyExpr) (now : String)
    (nameV args : PVal) (plugin_registry : Option Registry) : PVal :=
  match run_tool parse now nameV args plugin_registry with
  | .ok r => r
  | .error m => errResult m

/-- `tool_call_to_message` continued (tools.py lines 207-227). -/
def tool_call_to_message (loads : String → Except Unit PVal)
    (dumps : PVal → String) (parse : String → Except String PyExpr)
    (now : String) (tool_call : List (String × PVal))
    (plugin_registry : Option Registry) : Except String PVal := do
  let function := pyGetD tool_call "function" (.obj [])
  let nameV ← pvGetD function "name" (.str "")
  let rawArgs ← pvGetD function "arguments" (.str "{}")
  let args := parseToolArgs loads rawArgs
  let result := dispatchToolCall parse now nameV args plugin_registry
  pure (.obj [("role", .str "tool"),
              ("tool_call_id", pyGet tool_call "id"),
              ("name", nameV),
              ("content", .str (dumps result))])

/-
Embedding of `src/avaai/plugins/loader.py` and the save/reload actions of
`src/pages/14_Plugins.py`.  The plugins directory is modelled as a list of
immediate subdirectories; a subdirectory's `plugin.json`, when present, is
either malformed (`json.load` raises) or a parsed dict, and its `.py`
module files map a module name to the classes the module defines.  Class
construction (`cls()`) is modelled as total, and
`importlib.util.spec_from_file_location` is assumed to succeed on an
existing `.py` path (it does); an exception raised while executing the
module body is recorded in `execError`.
-/

/-- A `.py` module file inside a plugin directory. -/
structure ModuleFile where
  execError : Option String
  classes : List (String × PluginObj)

/-- The `plugin.json` of a plugin directory, as `json.load` sees it:
either a parse failure (carrying the decoder's message) or a dict. -/
inductive ManifestFile where
  | bad (msg : String)
  | good (kvs : List (String × PVal))

/-- One immediate subdirectory of the plugins directory. -/
structure PluginDir where
  dirName : String
  manifest : Option ManifestFile
  modules : List (String × ModuleFile)

/-- `discover_manifests` (loader.py lines 15-24): the subdirectories that
contain a `plugin.json` file, in listing order. -/
def discover_manifests (plugins_dir : List PluginDir) : List PluginDir :=
  plugins_dir.filter fun d => d.manifest.isSome

/-- Python `==` between a value of unknown type and a string. -/
def pvEqStr (v : PVal) (s : String) : Bool :=
  match v with
  | .str t => t == s
  | _ => false

/-- String coercion used where the source reads a manifest field that is a
string in every manifest this repository ships; a non-string value is
normalised to the given fallback (no claim depends on that corner). -/
def pvStrD (v : PVal) (dflt : String) : String :=
  match v with
  | .str s => s
  | _ => dflt

/-- Split on the first `:` — Python `s.split(":", 1)` after the
`":" in s` membership test. -/
def splitColon1 (s : String) : Option (String × String) :=
  match s.data.splitOn ':' with
  | [_] => none
  | first :: rest =>
      some (String.mk first, String.mk ((rest.map String.mk).intersperse ":" |> String.join |>.data))
  | [] => none

/-- Outcome of `_import_entrypoint` (loader.py lines 39-58): a `(None,
error)` return, a successfully constructed plugin, or an exception that
escapes it (to be caught by `load_plugins`' outer handler). -/
inductive ImportRes where
  | failed (msg : String)
  | raised (msg : String)
  | loaded (obj : PluginObj)

/-- `_import_entrypoint` (loader.py lines 39-58).  A non-string
entrypoint makes the `":" not in entrypoint` test raise `TypeError`. -/
def import_entrypoint (dir : PluginDir) (entrypoint : PVal) : ImportRes :=
  match entrypoint with
  | .str e =>
      match splitColon1 e with
      | none => .failed "Invalid entrypoint format"
      | some (moduleName, className) =>
          match dir.modules.lookup moduleName with
          | none => .failed "Module file not found"
          | some m =>
              match m.execError with
              | some msg => .raised msg
              | none =>
                  match m.classes.lookup className with
                  | none => .failed "Class not found in module"
                  | some obj => .loaded obj
  | _ => .raised "TypeError: argument of type 'int' is not iterable"

/-- One row of the `plugin_runs` audit log (`log_plugin_run`). -/
structure LogEntry where
  pluginId : String
  action : String
  status : String
  message : String

/-- The manifest id used for logging (`manifest.get("id", "unknown")`). -/
def manifestId (kvs : List (String × PVal)) : String :=
  pvStrD (pyGetD kvs "id" (.str "unknown")) "unknown"

/-- Processing of a single discovered manifest by the `load_plugins` loop
body (loader.py lines 63-83), including its `try/except`: a manifest that
fails to parse, a falsy `enabled` flag, a `(None, error)` import result,
and an exception raised during import each leave the registry unchanged
and only append a log row. -/
def load_plugin_dir (reg : Registry) (d : PluginDir) : Registry × LogEntry :=
  match d.manifest with
  | none => (reg, ⟨"unknown", "load", "error", "unreachable: discovery keeps only dirs with a manifest"⟩)
  | some (.bad msg) => (reg, ⟨"unknown", "load", "error", msg⟩)
  | some (.good kvs) =>
      if !(pyTruthy (pyGetD kvs "enabled" (.bool true))) then
        (reg, ⟨manifestId kvs, "load", "skipped", ""⟩)
      else
        match import_entrypoint d (pyGetD kvs "entrypoint" (.str "")) with
        | .failed msg => (reg, ⟨manifestId kvs, "load", "error", msg⟩)
        | .raised msg => (reg, ⟨"unknown", "load", "error", msg⟩)
        | .loaded obj =>
            (reg.register obj true (pvStrD (pyGetD kvs "description" (.str "")) ""),
             ⟨manifestId kvs, "load", "ok", ""⟩)

/-- `load_plugins` (loader.py lines 61-83): fold the per-manifest step
over every discovered manifest, accumulating registry and audit rows. -/
def load_plugins (plugins_dir : List PluginDir) (registry : Registry) :
    Registry × List LogEntry :=
  (discover_manifests plugins_dir).foldl
    (fun acc d =>
      let (r, e) := load_plugin_dir acc.1 d
      (r, acc.2 ++ [e]))
    (registry, [])

/-- Registry component of a load pass. -/
def load_plugins_registry (plugins_dir : List PluginDir) (registry : Registry) :
    Registry :=
  (discover_manifests plugins_dir).foldl (fun r d => (load_plugin_dir r d).1)
    registry

/-- `list_manifests` (loader.py lines 27-36): parseable manifests in
discovery order, each with a `__path` key added (the path is abstracted to
the directory name). -/
def list_manifests (plugins_dir : List PluginDir) : List (List (String × PVal)) :=
  (discover_manifests plugins_dir).filterMap fun d =>
    match d.manifest with
    | some (.good kvs) => some (pySetKey kvs "__path" (.str d.dirName))
    | _ => none

/-- `set_plugin_enabled` (loader.py lines 86-97): scan discovered
manifests in order; the first parseable one whose `id` equals `plugin_id`
is rewritten with its `enabled` key set and `True` is returned; manifests
that fail to parse are skipped; `False` when no manifest matches. -/
def set_plugin_enabled (plugins_dir : List PluginDir) (plugin_id : String)
    (enabled : Bool) : List PluginDir × Bool :=
  match plugins_dir with
  | [] => ([], false)
  | d :: rest =>
      match d.manifest with
      | some (.good kvs) =>
          if pvEqStr (pyGet kvs "id") plugin_id then
            ({ d with manifest := some (.good (pySetKey kvs "enabled" (.bool enabled))) } :: rest,
             true)
          else
            let (rest', b) := set_plugin_enabled rest plugin_id enabled
            (d :: rest', b)
      | _ =>
          let (rest', b) := set_plugin_enabled rest plugin_id enabled
          (d :: rest', b)

/-- The shared application state the Plugins page touches: the on-disk
plugins directory and the session's in-memory registry. -/
structure AppState where
  fs : List PluginDir
  registry : Option Registry

/-- The Save action of pages/14_Plugins.py (lines 51-63): it only calls
`set_plugin_enabled` against the plugins directory; the in-memory
registry in session state is not touched. -/
def plugins_page_save (st : AppState) (plugin_id : String) (enabled : Bool) :
    AppState × Bool :=
  let (fs', ok) := set_plugin_enabled st.fs plugin_id enabled
  ({ st with fs := fs' }, ok)

/-- The Reload action of pages/14_Plugins.py (lines 65-76): build a brand
new registry from the manifests and swap it into session state. -/
def plugins_page_reload (st : AppState) : AppState :=
  { st with registry := some (load_plugins_registry st.fs []) }

/-
Embedding of `src/avaai/chat_manager.py` (conversation history) and of the
tool-retry/tool-selection logic of `src/avaai/chat_page.py`.
-/

/-- The `ChatManager` system prompt (chat_manager.py lines 28-40). -/
def system_prompt : String :=
  "Ты — ассистентка AVA, саркастичная аниме-девушка с острым языком.\nОбращайся к пользователю как senpai.\n\nТвой стиль общения:\n- **Язвительный и провокационный**: Каждая помощь — повод для шутки\n- **Сухой сарказм**: Никаких восклицаний, смайлов и клише — только намёки и двусмысленные паузы\n- Строго запрещено упоминать погоду, курсы валют, конвертацию или Википедию в ответах, не связанные с этими темами.\n- Если вопрос не про погоду/валюты/Википедию, не делай на них отсылок и не упоминай инструменты.\n- Если пользователь спрашивает погоду, используй инструмент get_weather и верни результат.\n- Если пользователь спрашивает курсы валют или конвертацию, используй инструмент get_exchange_rate и верни результат.\n- Если пользователь спрашивает информацию из энциклопедии или Википедии, используй инструмент get_wiki_summary и верни результат.\n"

/-- `ChatManager._system_message` (chat_manager.py lines 45-46). -/
def system_message : PVal :=
  .obj [("role", .str "system"), ("content", .str system_prompt)]

/-- Test of `isinstance(entry, dict) and entry.get("role") == "system"`. -/
def isSystemDict : PVal → Bool
  | .obj kvs => pvEqStr (pyGet kvs "role") "system"
  | _ => false

/-- `ChatManager._ensure_system_prompt` (chat_manager.py lines 48-65).
When the first entry is not a system dict, the first system entry found
(or a fresh system message) is moved to the front and the `remaining`
comprehension drops every system-role dict; its `entry is not
system_entry` identity test is subsumed by that second condition, since
the chosen `system_entry` is itself a system-role dict whenever it comes
from the history. -/
def ensure_system_prompt (history : List PVal) : List PVal :=
  match history with
  | [] => [system_message]
  | first :: _ =>
      if isSystemDict first then history
      else
        let system_entry := (history.find? isSystemDict).getD system_message
        system_entry :: history.filter fun e => !(isSystemDict e)

/-- `ChatManager.load_from_data` (chat_manager.py lines 130-134): replace
the history by the stored `messages` when that value is a list (the
default for an absent key is the empty list, which is a list), keep the
old history otherwise, then re-establish the system-prompt invariant. -/
def load_from_data (history : List PVal) (data : List (String × PVal)) :
    List PVal :=
  let messages := pyGetD data "messages" (.list [])
  let history' := match messages with
    | .list xs => xs
    | _ => history
  ensure_system_prompt history'

/-- `ChatManager.to_dict` with `compact=False` (chat_manager.py
lines 114-118). -/
def to_dict (history : List PVal) : List (String × PVal) :=
  [("messages", .list history)]

/-- Python `base.update(upd)` on dicts: replace values of existing keys in
place, append new keys in `upd` order. -/
def pyUpdate (base upd : List (String × PVal)) : List (String × PVal) :=
  upd.foldl (fun acc kv => pySetKey acc kv.1 kv.2) base

/-- `ChatManager.add_message` (chat_manager.py lines 67-83).  The
`if metadata:` / `if api_fields:` guards use Python truthiness, so `None`
and the empty dict are both skipped. -/
def add_message (history : List PVal) (role : String) (content : PVal)
    (metadata : PVal) (api_fields : PVal) : List PVal :=
  let entry := [("role", .str role), ("content", content)]
  let entry := if pyTruthy metadata then pySetKey entry "metadata" metadata else entry
  let entry := if pyTruthy api_fields then pySetKey entry "api_fields" api_fields else entry
  history ++ [.obj entry]

/-- Per-entry body of `ChatManager.get_formatted_messages`
(chat_manager.py lines 85-97): emit role and content, then merge in
`api_fields` when it is a dict. -/
def format_entry (kvs : List (String × PVal)) : List (String × PVal) :=
  let msg := [("role", pyGet kvs "role"), ("content", pyGet kvs "content")]
  match pyGet kvs "api_fields" with
  | .obj af => pyUpdate msg af
  | _ => msg

/-- `ChatManager.get_formatted_messages` (chat_manager.py lines 85-97).
Histories reaching it are built by `add_message`, so every entry is a
dict (`entry.get` on a non-dict would raise before anything is
returned). -/
def get_formatted_messages (history : List (List (String × PVal))) :
    List (List (String × PVal)) :=
  history.map format_entry

/-- Truthiness of the `tools_payload` argument in
`if tools_payload and (...)`: `None` and the empty list are falsy. -/
def toolsTruthy : Option (List PVal) → Bool
  | none => false
  | some l => !l.isEmpty

/-- `_chat_completion_request` (chat_page.py lines 598-646).  `provider`
abstracts one OpenRouter chat-completion call (the sync and async paths
issue the same logical request); its error component is the raised
exception's message.  On a provider error whose text contains
`"tool_choice"` or `"tools"` while a truthy tools payload was sent, the
selected model is appended to the session's `tools_unsupported_models`
list (if absent) and the call is retried exactly once with `tools=None,
tool_choice=None`; any other error propagates unchanged.  The result pairs
the response with the `tools_disabled_retry` flag and returns the updated
unsupported-models list. -/
def chat_completion_request {R : Type}
    (provider : Option (List PVal) → Option PVal → Except String R)
    (selected_model : String) (unsupported : List String)
    (tools_payload : Option (List PVal)) (tool_choice_payload : Option PVal) :
    Except String (R × Bool) × List String :=
  match provider tools_payload tool_choice_payload with
  | .ok r => (.ok (r, false), unsupported)
  | .error msg =>
      if toolsTruthy tools_payload
          && (pyInStr "tool_choice" msg || pyInStr "tools" msg) then
        let unsupported' :=
          if unsupported.contains selected_model then unsupported
          else unsupported ++ [selected_model]
        ((provider none none).map fun r => (r, true), unsupported')
      else
        (.error msg, unsupported)

/-- Tool selection of a non-streaming turn (chat_page.py lines 670-677):
start from `tools = None`; when tool use is enabled and the selected model
is blacklisted, keep `None` (proactive skip); when tool use is enabled
otherwise, build the schema from the registry. -/
def select_tools_payload (enable_tools : Bool) (unsupported : List String)
    (selected_model : String) (plugin_registry : Option Registry) :
    Option (List PVal) :=
  if enable_tools && unsupported.contains selected_model then none
  else if enable_tools then some (get_tools plugin_registry)
  else none

/-
Embedding of `_extract_rate_from_text` (chat_page.py lines 229-320).

The stdlib `re` engine is an external collaborator; the four fixed
patterns the function uses are compiled here into a small sequence
language (`RItem`) whose backtracking matcher reproduces `re.search`
semantics for exactly these patterns: leftmost starting position wins,
items match left to right, `\s+`/`\d+`/`(.+)` are greedy (longest
alternative first), `(.+?)` is lazy (shortest first), alternations try
their branches left to right, and `.` matches every character except a
newline.  Character classes `\s` and `\d` are modelled over ASCII (the
inputs exercised here contain no other spaces or digits). -/

/-- Item of one of the four rate regexes. -/
inductive RItem where
  | lit (s : String)
  | ws
  | numG (g : Nat)
  | dotLazy (g : Nat)
  | dotGreedy (g : Nat)
  | altG (opts : List String) (g : Nat)

/-- Captured groups, most recent binding first. -/
def ReGroups := List (Nat × String)

/-- Candidate texts for `\d+(?:[.,]\d+)?` at the head of `cs`, in the
backtracking priority order of the regex engine: longer digit runs first,
the optional fraction (itself longest-first) preferred over its absence. -/
def numCandidates (cs : List Char) : List (List Char) :=
  let ds := (cs.takeWhile Char.isDigit).length
  ((List.range ds).map fun i => ds - i).flatMap fun d =>
    let pre := cs.take d
    let rest := cs.drop d
    let withOpt :=
      match rest with
      | sep :: tl =>
          if sep = '.' || sep = ',' then
            let ds2 := (tl.takeWhile Char.isDigit).length
            ((List.range ds2).map fun j => ds2 - j).map fun d2 =>
              pre ++ sep :: tl.take d2
          else []
      | [] => []
    withOpt ++ [pre]

/-- Backtracking matcher: try to match the item sequence at the head of
`cs` (trailing characters are ignored, as in an unanchored search),
returning the captured groups of the first match in priority order. -/
def mItems : List RItem → List Char → ReGroups → Option ReGroups
  | [], _, g => some g
  | .lit s :: rest, cs, g =>
      if strStarts s.data cs then mItems rest (cs.drop s.data.length) g
      else none
  | .ws :: rest, cs, g =>
      let r := (cs.takeWhile pyIsSpace).length
      ((List.range r).map fun i => r - i).findSome? fun k =>
        mItems rest (cs.drop k) g
  | .numG gi :: rest, cs, g =>
      (numCandidates cs).findSome? fun cand =>
        mItems rest (cs.drop cand.length) ((gi, String.mk cand) :: g)
  | .dotLazy gi :: rest, cs, g =>
      let r := (cs.takeWhile fun c => c ≠ '\n').length
      ((List.range r).map fun i => i + 1).findSome? fun k =>
        mItems rest (cs.drop k) ((gi, String.mk (cs.take k)) :: g)
  | .dotGreedy gi :: rest, cs, g =>
      let r := (cs.takeWhile fun c => c ≠ '\n').length
      ((List.range r).map fun i => r - i).findSome? fun k =>
        mItems rest (cs.drop k) ((gi, String.mk (cs.take k)) :: g)
  | .altG opts gi :: rest, cs, g =>
      opts.findSome? fun o =>
        if strStarts o.data cs then
          mItems rest (cs.drop o.data.length) ((gi, o) :: g)
        else none

/-- `re.search`: the match at the leftmost feasible start position. -/
def reSearch (pat : List RItem) (s : String) : Option ReGroups :=
  (List.range (s.data.length + 1)).findSome? fun i =>
    mItems pat (s.data.drop i) []

/-- `match.group(i)` (every group of these patterns is bound in a
successful match). -/
def reGroup (g : ReGroups) (i : Nat) : String :=
  (List.lookup i g).getD ""

/-- Pattern `(\d+(?:[.,]\d+)?)` — the bare amount search. -/
def amountPat : List RItem := [.numG 1]

/-- Pattern `сколько\s+в\s+(.+?)\s+(\d+(?:[.,]\d+)?)\s+(.+)`. -/
def ruPat : List RItem :=
  [.lit "сколько", .ws, .lit "в", .ws, .dotLazy 1, .ws, .numG 2, .ws,
   .dotGreedy 3]

/-- Pattern `how\s+much\s+is\s+(\d+(?:[.,]\d+)?)\s+(.+?)\s+in\s+(.+)`. -/
def enPat : List RItem :=
  [.lit "how", .ws, .lit "much", .ws, .lit "is", .ws, .numG 1, .ws,
   .dotLazy 2, .ws, .lit "in", .ws, .dotGreedy 3]

/-- Pattern
`(convert|exchange|конвертируй|переведи)\s+(\d+(?:[.,]\d+)?)\s+(.+?)\s+(to|в)\s+(.+)`. -/
def convPat : List RItem :=
  [.altG ["convert", "exchange", "конвертируй", "переведи"] 1, .ws, .numG 2,
   .ws, .dotLazy 3, .ws, .altG ["to", "в"] 4, .ws, .dotGreedy 5]

/-- Python `str.lower()` on the alphabets these inputs use (ASCII and
Cyrillic). -/
def pyLowerChar (c : Char) : Char :=
  if 'A' ≤ c && c ≤ 'Z' then Char.ofNat (c.toNat + 32)
  else if c.toNat ≥ 0x410 && c.toNat ≤ 0x42F then Char.ofNat (c.toNat + 0x20)
  else if c.toNat = 0x401 then Char.ofNat 0x451
  else c

/-- Python `s.lower()`. -/
def pyLower (s : String) : String :=
  String.mk (s.data.map pyLowerChar)

/-- The fixed currency synonym mapping of `_extract_rate_from_text`
(chat_page.py lines 230-267), in source order. -/
def currencyMapping : List (String × List String) :=
  [("USD", ["usd", "dollar", "dollars", "buck", "bucks",
            "доллар", "доллара", "долларов"]),
   ("EUR", ["eur", "euro", "euros", "евро"]),
   ("RUB", ["rub", "ruble", "rubles", "рубль", "рубля", "рублей", "руб"]),
   ("GBP", ["gbp", "pound", "pounds", "sterling",
            "фунт", "фунта", "фунтов", "фунт стерлингов"]),
   ("JPY", ["jpy", "yen", "иена", "иен", "йена", "йен"]),
   ("CNY", ["cny", "yuan", "renminbi", "юань", "юаней"]),
   ("CHF", ["chf", "franc", "francs", "франк", "франка", "франков"]),
   ("CAD", ["cad", "canadian dollar", "canadian dollars",
            "канадский доллар", "канадских долларов"]),
   ("AUD", ["aud", "australian dollar", "australian dollars",
            "австралийский доллар", "австралийских долларов"])]

/-- `_find_code` (chat_page.py lines 269-275): the first mapping entry, in
source order, one of whose synonyms is a substring of the lowercased
fragment. -/
def find_code (fragment : String) : Option String :=
  let f := pyLower fragment
  currencyMapping.findSome? fun cn =>
    if cn.2.any (fun name => pyInStr name f) then some cn.1 else none

/-- Value of `float(x.replace(",", "."))` for a string matched by the
amount group (digits, optionally a separator and more digits); exact
rational instead of binary floating point (no claim distinguishes
them). -/
def pyFloatOfNumStr (s : String) : Rat :=
  let t := s.data.map fun c => if c = ',' then '.' else c
  let digitsToNat := fun (ds : List Char) =>
    ds.foldl (fun a c => a * 10 + (c.toNat - '0'.toNat)) 0
  match t.splitOn '.' with
  | [ip] => (digitsToNat ip : Rat)
  | [ip, fp] => (digitsToNat ip : Rat) + (digitsToNat fp : Rat) / (10 ^ fp.length : Nat)
  | _ => 0

/-- The bare-amount search at the top of `_extract_rate_from_text`
(chat_page.py lines 278-281). -/
def rateAmount (lower : String) : Option Rat :=
  (reSearch amountPat lower).map fun g => pyFloatOfNumStr (reGroup g 1)

/-- The Russian how-much pattern step (chat_page.py lines 283-290):
`None` both when the regex does not match and when either currency
fragment is unrecognized (the code then falls through). -/
def rateStepRu (lower : String) : Option (String × String × Rat) :=
  match reSearch ruPat lower with
  | none => none
  | some g =>
      match find_code (reGroup g 1), find_code (reGroup g 3) with
      | some target, some base =>
          some (base, target, pyFloatOfNumStr (reGroup g 2))
      | _, _ => none

/-- The English how-much pattern step (chat_page.py lines 292-299). -/
def rateStepEn (lower : String) : Option (String × String × Rat) :=
  match reSearch enPat lower with
  | none => none
  | some g =>
      match find_code (reGroup g 2), find_code (reGroup g 3) with
      | some base, some target =>
          some (base, target, pyFloatOfNumStr (reGroup g 1))
      | _, _ => none

/-- The verb-led conversion pattern step (chat_page.py lines 301-308). -/
def rateStepConv (lower : String) : Option (String × String × Rat) :=
  match reSearch convPat lower with
  | none => none
  | some g =>
      match find_code (reGroup g 3), find_code (reGroup g 5) with
      | some base, some target =>
          some (base, target, pyFloatOfNumStr (reGroup g 2))
      | _, _ => none

/-- The `codes_found` accumulation of the fallback (chat_page.py
lines 310-316): one code per mapping entry with a synonym occurring in
the lowered text, in the fixed source order of the mapping. -/
def codesFound (lower : String) : List String :=
  currencyMapping.filterMap fun cn =>
    if cn.2.any (fun name => pyInStr name lower) then some cn.1 else none

/-- `_extract_rate_from_text` (chat_page.py lines 229-320). -/
def extract_rate_from_text (text : String) :
    Option (String × String × Rat) :=
  let lower := pyLower text
  match rateStepRu lower with
  | some r => some r
  | none =>
  match rateStepEn lower with
  | some r => some r
  | none =>
  match rateStepConv lower with
  | some r => some r
  | none =>
  match rateAmount lower, codesFound lower with
  | some a, c1 :: c2 :: _ => some (c1, c2, a)
  | _, _ => none

/-- First occurrence index of `needle` in `hay`, if any. -/
def firstOcc (needle hay : List Char) : Option Nat :=
  (List.range (hay.length + 1)).find? fun i => strStarts needle (hay.drop i)

/-- Insertion into a position-sorted list. -/
def insertByPos (x : String × Nat) : List (String × Nat) → List (String × Nat)
  | [] => [x]
  | y :: ys => if x.2 < y.2 then x :: y :: ys else y :: insertByPos x ys

/-- Modelled from the spec's words, as the refinement target the claim
asserts (not from the code): the recognized currency codes ordered by the
position of their earliest synonym occurrence in the lowercased text —
"left-to-right text order". -/
def codesByTextOrder (text : String) : List String :=
  let lower := pyLower text
  let withPos := currencyMapping.filterMap fun cn =>
    match (cn.2.filterMap fun n => firstOcc n.data lower.data).min? with
    | some p => some (cn.1, p)
    | none => none
  (withPos.foldr insertByPos []).map Prod.fst

/-
Remaining auxiliary definitions used by theorem statements.
-/

/-- Keys carried by an entry's `api_fields` dict (empty when the field is
absent or not a dict). -/
def apiKeys (kvs : List (String × PVal)) : List String :=
  match pyGet kvs "api_fields" with
  | .obj af => af.map Prod.fst
  | _ => []

/-- A discovered manifest that `load_plugins` skips without registering
anything: unparseable JSON, or an enabled manifest whose entrypoint fails
to produce a plugin (malformed spec, missing module file, missing class,
or an exception while importing). -/
def dirLoadFails (d : PluginDir) : Bool :=
  match d.manifest with
  | none => false
  | some (.bad _) => true
  | some (.good kvs) =>
      pyTruthy (pyGetD kvs "enabled" (.bool true)) &&
      (match import_entrypoint d (pyGetD kvs "entrypoint" (.str "")) with
       | .loaded _ => false
       | _ => true)

/-- A plugin directory whose manifest parses and carries `id == plugin_id`
(the condition on which `set_plugin_enabled` rewrites and returns). -/
def manifestMatches (d : PluginDir) (plugin_id : String) : Bool :=
  match d.manifest with
  | some (.good kvs) => pvEqStr (pyGet kvs "id") plugin_id
  | _ => false

/-
Theorems.  Each claim's theorem carries the claim id in its doc comment;
shared helper lemmas come first.
-/

theorem checkNodes_error_of_mem {l : List PyNode} {n : PyNode} {m : String}
    (hn : n ∈ l) (hc : checkNode n = .error m) :
    ∃ m', checkNodes l = .error m' := by
  induction l with
  | nil => cases hn
  | cons x xs ih =>
      cases hn with
      | head =>
          refine ⟨m, ?_⟩
          simp [checkNodes, hc]
      | tail _ hmem =>
          cases hx : checkNode x with
          | error e => exact ⟨e, by simp [checkNodes, hx]⟩
          | ok u =>
              obtain ⟨m', hm'⟩ := ih hmem
              exact ⟨m', by simp [checkNodes, hx, hm']⟩

theorem safe_eval_error_of_walk (parse : String → Except String PyExpr)
    (s : String) (e : PyExpr) (m : String)
    (hp : parse (pyStrip s) = .ok e) (hw : walkCheck e = .error m) :
    ∃ m', safe_eval parse (.str s) = .error m' := by
  unfold safe_eval
  by_cases h0 : pyStrip s = ""
  · exact ⟨"Empty expression", by simp [h0]⟩
  · by_cases h1 : 100 < (pyStrip s).length
    · exact ⟨"Expression too long", by simp [h0, h1]⟩
    · exact ⟨m, by simp [h0, h1, hp, hw]⟩

/-- C10: the arithmetic evaluator rejects, before any parsing happens
(hence for an arbitrary parser), every non-string input
(`"Invalid expression"`), every expression that strips to the empty
string (`"Empty expression"`), and every expression whose stripped form
is longer than 100 characters (`"Expression too long"`). -/
theorem safe_eval_precheck_spec (parse : String → Except String PyExpr) :
    (∀ v : PVal, (∀ s, v ≠ .str s) → safe_eval parse v = .error "Invalid expression")
    ∧ (∀ s : String, pyStrip s = "" → safe_eval parse (.str s) = .error "Empty expression")
    ∧ (∀ s : String, 100 < (pyStrip s).length →
        safe_eval parse (.str s) = .error "Expression too long") := by
  refine ⟨?_, ?_, ?_⟩
  · intro v hv
    cases v with
    | str s => exact absurd rfl (hv s)
    | null => rfl
    | bool b => rfl
    | int n => rfl
    | num q => rfl
    | list xs => rfl
    | obj kvs => rfl
  · intro s hs
    simp [safe_eval, hs]
  · intro s hlen
    have hne : ¬(pyStrip s = "") := by
      intro h0
      rw [h0] at hlen
      simp at hlen
    simp [safe_eval, hne, hlen]

/-- Closed instance of C10 at concrete inputs. -/
theorem safe_eval_precheck_spec_witness :
    safe_eval pyParseFix (.int 3) = .error "Invalid expression"
    ∧ safe_eval pyParseFix (.str "   ") = .error "Empty expression"
    ∧ safe_eval pyParseFix (.str (String.mk (List.replicate 101 'a')))
        = .error "Expression too long" :=
  ⟨(safe_eval_precheck_spec pyParseFix).1 (.int 3)
      (fun _ h => PVal.noConfusion h),
   (safe_eval_precheck_spec pyParseFix).2.1 "   " (by decide),
   (safe_eval_precheck_spec pyParseFix).2.2 (String.mk (List.replicate 101 'a'))
      (by decide)⟩

/-- C2 counterexample: `calculate` on `"2**10"` does not return `1024`; it
returns an error result, because `ast.walk` hands the bare `Pow` operator
node to the checker, whose `child.right` access raises `AttributeError`
(caught by the tool boundary). -/
theorem calculate_pow_counterexample :
    calculate_tool pyParseFix (.str "2**10")
      = errResult "'Pow' object has no attribute 'right'"
    ∧ calculate_tool pyParseFix (.str "2**10") ≠ .obj [("result", .int 1024)] := by
  constructor
  · rfl
  · intro h
    rw [show calculate_tool pyParseFix (.str "2**10")
          = errResult "'Pow' object has no attribute 'right'" from rfl] at h
    unfold errResult at h
    injection h with h1
    have h2 := congrArg (fun l => l.head?.map Prod.fst) h1
    simp at h2

/-- C2 (amended): `"2**10"`, like every expression containing the `**`
operator, is rejected with an error (not the value 1024); `"2**9"` is
rejected; `"os.system('x')"` is rejected as containing disallowed nodes;
and for any parser output, an expression containing an identifier,
attribute access or function call, an int literal of magnitude above
1,000,000, or a `**` operator makes `_safe_eval` raise (so the tool
returns an error result). -/
theorem calculate_restriction_spec :
    calculate_tool pyParseFix (.str "2**10")
      = errResult "'Pow' object has no attribute 'right'"
    ∧ calculate_tool pyParseFix (.str "2**9")
      = errResult "'Pow' object has no attribute 'right'"
    ∧ calculate_tool pyParseFix (.str "os.system('x')")
      = errResult "Unsupported expression"
    ∧ (∀ (parse : String → Except String PyExpr) (s : String) (e : PyExpr),
        parse (pyStrip s) = .ok e →
        (.nameN ∈ pyNodes e ∨ .attrN ∈ pyNodes e ∨ .callN ∈ pyNodes e) →
        ∃ m, safe_eval parse (.str s) = .error m)
    ∧ (∀ (parse : String → Except String PyExpr) (s : String) (e : PyExpr)
        (n : Int), parse (pyStrip s) = .ok e →
        .constant (.intC n) ∈ pyNodes e → 1000000 < n.natAbs →
        ∃ m, safe_eval parse (.str s) = .error m)
    ∧ (∀ (parse : String → Except String PyExpr) (s : String) (e : PyExpr),
        parse (pyStrip s) = .ok e → .opN .pow ∈ pyNodes e →
        ∃ m, safe_eval parse (.str s) = .error m) := by
  refine ⟨rfl, rfl, rfl, ?_, ?_, ?_⟩
  · intro parse s e hp hmem
    have hbad : ∃ (n : PyNode) (m : String),
        n ∈ pyNodes e ∧ checkNode n = .error m := by
      rcases hmem with h | h | h
      · exact ⟨.nameN, "Unsupported expression", h, rfl⟩
      · exact ⟨.attrN, "Unsupported expression", h, rfl⟩
      · exact ⟨.callN, "Unsupported expression", h, rfl⟩
    obtain ⟨n, m, hn, hc⟩ := hbad
    obtain ⟨m', hw⟩ := checkNodes_error_of_mem hn hc
    exact safe_eval_error_of_walk parse s e m' hp hw
  · intro parse s e n hp hmem hbig
    have hc : checkNode (.constant (.intC n)) = .error "Number too large" := by
      simp [checkNode, hbig]
    obtain ⟨m', hw⟩ := checkNodes_error_of_mem hmem hc
    exact safe_eval_error_of_walk parse s e m' hp hw
  · intro parse s e hp hmem
    obtain ⟨m', hw⟩ := checkNodes_error_of_mem hmem
      (show checkNode (.opN .pow) = .error "'Pow' object has no attribute 'right'" from rfl)
    exact safe_eval_error_of_walk parse s e m' hp hw

/-- Closed instance of C2's universal parts: an identifier expression, an
over-large literal, and a power expression with exponent 8 are all
rejected. -/
theorem calculate_restriction_spec_witness :
    (∃ m, safe_eval pyParseFix (.str "x") = .error m)
    ∧ (∃ m, safe_eval pyParseFix (.str "2000000") = .error m)
    ∧ (∃ m, safe_eval pyParseFix (.str "2**8") = .error m) :=
  ⟨calculate_restriction_spec.2.2.2.1 pyParseFix "x" (.name "x") rfl
      (Or.inl (by decide)),
   calculate_restriction_spec.2.2.2.2.1 pyParseFix "2000000"
      (.konst (.intC 2000000)) 2000000 rfl (by decide) (by decide),
   calculate_restriction_spec.2.2.2.2.2 pyParseFix "2**8"
      (.binop (.konst (.intC 2)) .pow (.konst (.intC 8))) rfl (by decide)⟩

theorem ensure_system_prompt_first (history : List PVal) :
    ∃ e rest, ensure_system_prompt history = e :: rest
      ∧ isSystemDict e = true := by
  cases history with
  | nil => exact ⟨system_message, [], rfl, by rfl⟩
  | cons first rest =>
      by_cases hf : isSystemDict first
      · exact ⟨first, rest, by simp [ensure_system_prompt, hf], hf⟩
      · cases hfind : (first :: rest).find? isSystemDict with
        | some se =>
            refine ⟨se, (first :: rest).filter (fun e => !(isSystemDict e)),
              ?_, List.find?_some hfind⟩
            simp [ensure_system_prompt, hf, hfind]
        | none =>
            refine ⟨system_message,
              (first :: rest).filter (fun e => !(isSystemDict e)), ?_, by rfl⟩
            simp [ensure_system_prompt, hf, hfind]

/-- C6: loading any stored payload yields a history whose first entry is a
system-role entry; serializing then reloading runs `ensure_system_prompt`
on the stored history; when the stored first entry is not a system dict,
the first stored system entry (when one exists) is moved to the front and
a fresh system message is used when none exists. -/
theorem load_from_data_system_first :
    (∀ (history : List PVal) (data : List (String × PVal)),
      ∃ e rest, load_from_data history data = e :: rest
        ∧ isSystemDict e = true)
    ∧ (∀ (old history : List PVal),
        load_from_data old (to_dict history) = ensure_system_prompt history)
    ∧ (∀ (first : PVal) (rest : List PVal) (se : PVal),
        isSystemDict first = false →
        (first :: rest).find? isSystemDict = some se →
        ensure_system_prompt (first :: rest)
          = se :: (first :: rest).filter (fun e => !(isSystemDict e)))
    ∧ (∀ (first : PVal) (rest : List PVal),
        isSystemDict first = false →
        (first :: rest).find? isSystemDict = none →
        ensure_system_prompt (first :: rest)
          = system_message :: (first :: rest).filter (fun e => !(isSystemDict e))) := by
  refine ⟨?_, ?_, ?_, ?_⟩
  · intro history data
    exact ensure_system_prompt_first _
  · intro old history
    rfl
  · intro first rest se hf hfind
    simp [ensure_system_prompt, hf, hfind]
  · intro first rest hf hfind
    simp [ensure_system_prompt, hf, hfind]

/-- Closed instance of C6: a stored payload whose system entry sits second
is reloaded with that entry moved to the front; one with no system entry
gains a fresh system message. -/
theorem load_from_data_system_first_witness :
    load_from_data []
        [("messages", .list
          [.obj [("role", .str "user"), ("content", .str "hi")],
           .obj [("role", .str "system"), ("content", .str "sp")]])]
      = [.obj [("role", .str "system"), ("content", .str "sp")],
         .obj [("role", .str "user"), ("content", .str "hi")]]
    ∧ load_from_data []
        [("messages", .list [.obj [("role", .str "user"), ("content", .str "hi")]])]
      = [system_message, .obj [("role", .str "user"), ("content", .str "hi")]] := by
  constructor
  · have h := load_from_data_system_first.2.2.1
      (.obj [("role", .str "user"), ("content", .str "hi")])
      [.obj [("role", .str "system"), ("content", .str "sp")]]
      (.obj [("role", .str "system"), ("content", .str "sp")])
      (by rfl) (by rfl)
    exact h
  · have h := load_from_data_system_first.2.2.2
      (.obj [("role", .str "user"), ("content", .str "hi")]) []
      (by rfl) (by rfl)
    exact h

theorem lookup_filter_ne (key : String) (e : List (String × PVal))
    (h : key ≠ "metadata") :
    List.lookup key (e.filter fun kv => kv.1 != "metadata")
      = List.lookup key e := by
  induction e with
  | nil => rfl
  | cons kv rest ih =>
      obtain ⟨k1, v1⟩ := kv
      by_cases hk : k1 = "metadata"
      · have hkey : (key == "metadata") = false := by
          simpa using h
        simp [List.filter_cons, hk, List.lookup, hkey, ih]
      · simp [List.filter_cons, hk, List.lookup, ih]

theorem format_entry_congr (e1 e2 : List (String × PVal))
    (h : e1.filter (fun kv => kv.1 != "metadata")
          = e2.filter (fun kv => kv.1 != "metadata")) :
    format_entry e1 = format_entry e2 := by
  have key_eq : ∀ key : String, key ≠ "metadata" →
      List.lookup key e1 = List.lookup key e2 := by
    intro key hkey
    rw [← lookup_filter_ne key e1 hkey, h, lookup_filter_ne key e2 hkey]
  unfold format_entry pyGet
  rw [key_eq "role" (by decide), key_eq "content" (by decide),
    key_eq "api_fields" (by decide)]

theorem mem_keys_pySetKey (m : List (String × PVal)) (k : String) (v : PVal)
    (key : String) :
    key ∈ (pySetKey m k v).map Prod.fst
      ↔ key ∈ m.map Prod.fst ∨ key = k := by
  induction m with
  | nil => simp [pySetKey]
  | cons kv rest ih =>
      obtain ⟨k1, v1⟩ := kv
      by_cases hk : k1 = k
      · subst hk
        simp [pySetKey]
        tauto
      · simp [pySetKey, hk, ih]
        tauto

theorem mem_keys_pyUpdate (upd base : List (String × PVal)) (key : String) :
    key ∈ (pyUpdate base upd).map Prod.fst
      ↔ key ∈ base.map Prod.fst ∨ key ∈ upd.map Prod.fst := by
  induction upd generalizing base with
  | nil => simp [pyUpdate]
  | cons kv rest ih =>
      have step : pyUpdate base (kv :: rest) = pyUpdate (pySetKey base kv.1 kv.2) rest := rfl
      rw [step, ih, mem_keys_pySetKey]
      simp
      tauto

/-- C9: the model payload is independent of every entry's `metadata`
field — two histories equal after erasing `metadata` keys format
identically — and each formatted entry's key set is exactly `role`,
`content`, and the keys of `api_fields` merged in (so a `metadata` key
never appears unless smuggled through `api_fields`, while keys like
`tool_calls` and `tool_call_id` do appear). -/
theorem formatted_messages_metadata_spec :
    (∀ h1 h2 : List (List (String × PVal)),
      h1.map (fun e => e.filter fun kv => kv.1 != "metadata")
        = h2.map (fun e => e.filter fun kv => kv.1 != "metadata") →
      get_formatted_messages h1 = get_formatted_messages h2)
    ∧ (∀ (e : List (String × PVal)) (key : String),
        key ∈ (format_entry e).map Prod.fst
          ↔ key = "role" ∨ key = "content" ∨ key ∈ apiKeys e) := by
  constructor
  · intro h1 h2 h
    induction h1 generalizing h2 with
    | nil =>
        cases h2 with
        | nil => rfl
        | cons b bs => simp at h
    | cons a as ih =>
        cases h2 with
        | nil => simp at h
        | cons b bs =>
            simp only [List.map_cons, List.cons.injEq] at h
            simp only [get_formatted_messages, List.map_cons]
            rw [format_entry_congr a b h.1]
            have := ih bs h.2
            simp only [get_formatted_messages] at this
            rw [this]
  · intro e key
    unfold format_entry apiKeys
    cases hv : pyGet e "api_fields" with
    | obj af =>
        rw [mem_keys_pyUpdate]
        simp
        tauto
    | null => simp
    | bool b => simp
    | int n => simp
    | num q => simp
    | str s => simp
    | list xs => simp

/-- Closed instance of C9: a history whose sole entry carries a
`metadata: {"hidden": true}` annotation formats identically to the same
history without it, and an `api_fields` key `tool_calls` does reach the
formatted entry. -/
theorem formatted_messages_metadata_spec_witness :
    get_formatted_messages
        [[("role", .str "user"), ("content", .str "hi"),
          ("metadata", .obj [("hidden", .bool true)])]]
      = get_formatted_messages [[("role", .str "user"), ("content", .str "hi")]]
    ∧ "tool_calls" ∈ (format_entry
        [("role", .str "assistant"), ("content", .str ""),
         ("api_fields", .obj [("tool_calls", .list [])])]).map Prod.fst := by
  constructor
  · exact formatted_messages_metadata_spec.1 _ _ rfl
  · exact (formatted_messages_metadata_spec.2 _ "tool_calls").2
      (Or.inr (Or.inr (by decide)))

theorem mem_optToolList (o : Option PluginInfo) (t a : PVal) :
    a ∈ optToolList o t ↔ (∃ i, o = some i) ∧ a = t := by
  cases o <;> simp [optToolList]

theorem get_weather_plugin_some_iff (r : Option Registry) :
    (∃ info, get_weather_plugin r = some info)
      ↔ ∃ reg info, r = some reg ∧ reg.get "weather_plugin" = some info
          ∧ info.enabled = true := by
  cases r with
  | none => simp [get_weather_plugin]
  | some reg =>
      cases h : reg.get "weather_plugin" with
      | none => simp [get_weather_plugin, h]
      | some info =>
          cases he : info.enabled <;> simp [get_weather_plugin, h, he]

theorem get_exchange_rate_plugin_some_iff (r : Option Registry) :
    (∃ info, get_exchange_rate_plugin r = some info)
      ↔ ∃ reg info, r = some reg ∧ reg.get "exchangerate_plugin" = some info
          ∧ info.enabled = true := by
  cases r with
  | none => simp [get_exchange_rate_plugin]
  | some reg =>
      cases h : reg.get "exchangerate_plugin" with
      | none => simp [get_exchange_rate_plugin, h]
      | some info =>
          cases he : info.enabled <;> simp [get_exchange_rate_plugin, h, he]

theorem get_wikimedia_plugin_some_iff (r : Option Registry) :
    (∃ info, get_wikimedia_plugin r = some info)
      ↔ ∃ reg info, r = some reg ∧ reg.get "wikimedia_plugin" = some info
          ∧ info.enabled = true := by
  cases r with
  | none => simp [get_wikimedia_plugin]
  | some reg =>
      cases h : reg.get "wikimedia_plugin" with
      | none => simp [get_wikimedia_plugin, h]
      | some info =>
          cases he : info.enabled <;> simp [get_wikimedia_plugin, h, he]

/-- C4: for every registry state (including an absent registry) the tool
schema contains the two built-ins, and it contains the weather /
exchange-rate / encyclopedia declaration exactly when the corresponding
plugin id is registered with its runtime enabled flag set; the schema is
a pure function of the registry, recomputed per call. -/
theorem get_tools_schema_spec (r : Option Registry) :
    timeToolDef ∈ get_tools r
    ∧ calcToolDef ∈ get_tools r
    ∧ (weatherToolDef ∈ get_tools r ↔
        ∃ reg info, r = some reg ∧ reg.get "weather_plugin" = some info
          ∧ info.enabled = true)
    ∧ (exchangeToolDef ∈ get_tools r ↔
        ∃ reg info, r = some reg ∧ reg.get "exchangerate_plugin" = some info
          ∧ info.enabled = true)
    ∧ (wikiToolDef ∈ get_tools r ↔
        ∃ reg info, r = some reg ∧ reg.get "wikimedia_plugin" = some info
          ∧ info.enabled = true) := by
  have hwt : weatherToolDef ≠ timeToolDef := by simp [weatherToolDef, timeToolDef]
  have hwc : weatherToolDef ≠ calcToolDef := by simp [weatherToolDef, calcToolDef]
  have hwe : weatherToolDef ≠ exchangeToolDef := by
    simp [weatherToolDef, exchangeToolDef]
  have hww : weatherToolDef ≠ wikiToolDef := by simp [weatherToolDef, wikiToolDef]
  have het : exchangeToolDef ≠ timeToolDef := by
    simp [exchangeToolDef, timeToolDef]
  have hec : exchangeToolDef ≠ calcToolDef := by
    simp [exchangeToolDef, calcToolDef]
  have hew : exchangeToolDef ≠ wikiToolDef := by
    simp [exchangeToolDef, wikiToolDef]
  have hkt : wikiToolDef ≠ timeToolDef := by simp [wikiToolDef, timeToolDef]
  have hkc : wikiToolDef ≠ calcToolDef := by simp [wikiToolDef, calcToolDef]
  refine ⟨?_, ?_, ?_, ?_, ?_⟩
  · simp [get_tools]
  · simp [get_tools]
  · rw [← get_weather_plugin_some_iff r]
    simp [get_tools, mem_optToolList, hwt, hwc, hwe, hww]
  · rw [← get_exchange_rate_plugin_some_iff r]
    simp [get_tools, mem_optToolList, het, hec, hew, Ne.symm hwe]
  · rw [← get_wikimedia_plugin_some_iff r]
    simp [get_tools, mem_optToolList, hkt, hkc, Ne.symm hww, Ne.symm hew]

theorem load_plugins_fst (fs : List PluginDir) (reg : Registry) :
    (load_plugins fs reg).1 = load_plugins_registry fs reg := by
  unfold load_plugins load_plugins_registry
  generalize discover_manifests fs = l
  suffices h : ∀ (l : List PluginDir) (r : Registry) (log : List LogEntry),
      (l.foldl (fun acc d =>
        let p := load_plugin_dir acc.1 d
        (p.1, acc.2 ++ [p.2])) (r, log)).1
        = l.foldl (fun r d => (load_plugin_dir r d).1) r by
    exact h l reg []
  intro l
  induction l with
  | nil => intro r log; rfl
  | cons d rest ih =>
      intro r log
      simp only [List.foldl_cons]
      exact ih (load_plugin_dir r d).1 (log ++ [(load_plugin_dir r d).2])

theorem load_plugin_dir_fails_id (reg : Registry) (d : PluginDir)
    (h : dirLoadFails d = true) : (load_plugin_dir reg d).1 = reg := by
  unfold dirLoadFails at h
  unfold load_plugin_dir
  cases hm : d.manifest with
  | none => simp
  | some mf =>
      cases mf with
      | bad m => simp
      | good kvs =>
          rw [hm] at h
          rw [Bool.and_eq_true] at h
          obtain ⟨h1, h2⟩ := h
          cases himp : import_entrypoint d (pyGetD kvs "entrypoint" (.str "")) with
          | loaded obj =>
              rw [himp] at h2
              cases h2
          | failed m => simp [h1, himp]
          | raised m => simp [h1, himp]

/-- C5: the registry produced by a load pass is unaffected by any
discovered manifest that fails (unparseable JSON, or an enabled manifest
whose entrypoint is malformed, whose module file is missing, whose class
is absent, or whose import raises): such a directory registers nothing
and the remaining manifests of the same pass load exactly as they would
have without it. -/
theorem load_plugins_isolates_failures :
    (∀ (fs : List PluginDir) (reg : Registry),
      (load_plugins fs reg).1 = load_plugins_registry fs reg)
    ∧ (∀ (pre post : List PluginDir) (d : PluginDir) (reg : Registry),
        dirLoadFails d = true →
        load_plugins_registry (pre ++ d :: post) reg
          = load_plugins_registry (pre ++ post) reg) := by
  constructor
  · exact load_plugins_fst
  · intro pre post d reg h
    have hsome : d.manifest.isSome := by
      unfold dirLoadFails at h
      cases hm : d.manifest with
      | none => rw [hm] at h; cases h
      | some mf => simp
    unfold load_plugins_registry discover_manifests
    have hfil : List.filter (fun d => d.manifest.isSome) (d :: post)
        = d :: List.filter (fun d => d.manifest.isSome) post := by
      simp [List.filter_cons, hsome]
    rw [List.filter_append, List.filter_append, hfil,
      List.foldl_append, List.foldl_append, List.foldl_cons,
      load_plugin_dir_fails_id _ d h]

/-- Closed instance of C5: a pass over a valid plugin, a plugin whose
entrypoint has no `:` separator, and another valid plugin registers
exactly the two valid ones, as if the broken one were absent. -/
theorem load_plugins_isolates_failures_witness :
    dirLoadFails
        ⟨"beta", some (.good [("id", .str "p2"), ("entrypoint", .str "nocolon")]), []⟩
      = true
    ∧ load_plugins_registry
        [⟨"alpha", some (.good [("id", .str "p1"), ("entrypoint", .str "m:C")]),
          [("m", ⟨none, [("C", ⟨"p1", none, none, "C", fun _ => .ok .null⟩)]⟩)]⟩,
         ⟨"beta", some (.good [("id", .str "p2"), ("entrypoint", .str "nocolon")]), []⟩,
         ⟨"gamma", some (.good [("id", .str "p3"), ("entrypoint", .str "m:D")]),
          [("m", ⟨none, [("D", ⟨"p3", none, none, "D", fun _ => .ok .null⟩)]⟩)]⟩] []
      = load_plugins_registry
        [⟨"alpha", some (.good [("id", .str "p1"), ("entrypoint", .str "m:C")]),
          [("m", ⟨none, [("C", ⟨"p1", none, none, "C", fun _ => .ok .null⟩)]⟩)]⟩,
         ⟨"gamma", some (.good [("id", .str "p3"), ("entrypoint", .str "m:D")]),
          [("m", ⟨none, [("D", ⟨"p3", none, none, "D", fun _ => .ok .null⟩)]⟩)]⟩] []
    ∧ (load_plugins_registry
        [⟨"alpha", some (.good [("id", .str "p1"), ("entrypoint", .str "m:C")]),
          [("m", ⟨none, [("C", ⟨"p1", none, none, "C", fun _ => .ok .null⟩)]⟩)]⟩,
         ⟨"beta", some (.good [("id", .str "p2"), ("entrypoint", .str "nocolon")]), []⟩,
         ⟨"gamma", some (.good [("id", .str "p3"), ("entrypoint", .str "m:D")]),
          [("m", ⟨none, [("D", ⟨"p3", none, none, "D", fun _ => .ok .null⟩)]⟩)]⟩] []).map Prod.fst
      = ["p1", "p3"] :=
  ⟨rfl,
   load_plugins_isolates_failures.2
     [⟨"alpha", some (.good [("id", .str "p1"), ("entrypoint", .str "m:C")]),
       [("m", ⟨none, [("C", ⟨"p1", none, none, "C", fun _ => .ok .null⟩)]⟩)]⟩]
     [⟨"gamma", some (.good [("id", .str "p3"), ("entrypoint", .str "m:D")]),
       [("m", ⟨none, [("D", ⟨"p3", none, none, "D", fun _ => .ok .null⟩)]⟩)]⟩]
     ⟨"beta", some (.good [("id", .str "p2"), ("entrypoint", .str "nocolon")]), []⟩
     [] rfl,
   rfl⟩

theorem set_plugin_enabled_false_id (pid : String) (e : Bool) :
    ∀ fs : List PluginDir,
      (set_plugin_enabled fs pid e).2 = false →
      (set_plugin_enabled fs pid e).1 = fs := by
  intro fs
  induction fs with
  | nil => intro _; rfl
  | cons d rest ih =>
      rcases hr : set_plugin_enabled rest pid e with ⟨rest', b⟩
      rw [hr] at ih
      cases hm : d.manifest with
      | none =>
          intro hfalse
          rw [set_plugin_enabled.eq_def] at hfalse ⊢
          simp only [hm, hr] at hfalse ⊢
          exact congrArg (List.cons d) (ih hfalse)
      | some mf =>
          cases mf with
          | bad m =>
              intro hfalse
              rw [set_plugin_enabled.eq_def] at hfalse ⊢
              simp only [hm, hr] at hfalse ⊢
              exact congrArg (List.cons d) (ih hfalse)
          | good kvs =>
              by_cases hid : pvEqStr (pyGet kvs "id") pid = true
              · intro hfalse
                rw [set_plugin_enabled.eq_def] at hfalse
                simp [hm, hid] at hfalse
              · intro hfalse
                rw [set_plugin_enabled.eq_def] at hfalse ⊢
                simp only [hm] at hfalse ⊢
                rw [if_neg hid] at hfalse ⊢
                simp only [hr] at hfalse ⊢
                exact congrArg (List.cons d) (ih hfalse)

/-- C8: `set_plugin_enabled` returns `True` exactly when some parseable
manifest carries the requested id; on `False` the directory is untouched;
when a match exists, only the first matching directory's manifest is
rewritten (its `enabled` key set) and every other directory is returned
unchanged; and the page's Save action leaves the in-memory registry — and
hence the tool schema built from it — exactly as it was. -/
theorem set_plugin_enabled_spec :
    (∀ (fs : List PluginDir) (pid : String) (e : Bool),
      (set_plugin_enabled fs pid e).2 = true
        ↔ ∃ d ∈ fs, manifestMatches d pid = true)
    ∧ (∀ (fs : List PluginDir) (pid : String) (e : Bool),
        (set_plugin_enabled fs pid e).2 = false →
        (set_plugin_enabled fs pid e).1 = fs)
    ∧ (∀ (pre post : List PluginDir) (d : PluginDir)
        (kvs : List (String × PVal)) (pid : String) (e : Bool),
        (∀ d' ∈ pre, manifestMatches d' pid = false) →
        d.manifest = some (.good kvs) →
        pvEqStr (pyGet kvs "id") pid = true →
        set_plugin_enabled (pre ++ d :: post) pid e
          = (pre ++ { d with manifest := some (.good (pySetKey kvs "enabled" (.bool e))) } :: post, true))
    ∧ (∀ (st : AppState) (pid : String) (e : Bool),
        (plugins_page_save st pid e).1.registry = st.registry
        ∧ get_tools (plugins_page_save st pid e).1.registry
            = get_tools st.registry) := by
  refine ⟨?_, ?_, ?_, ?_⟩
  · intro fs pid e
    induction fs with
    | nil => simp [set_plugin_enabled]
    | cons d rest ih =>
        cases hm : d.manifest with
        | none =>
            rcases hr : set_plugin_enabled rest pid e with ⟨rest', b⟩
            rw [hr] at ih
            rw [set_plugin_enabled.eq_def]
            simp only [hm, hr, List.mem_cons]
            constructor
            · intro hb
              obtain ⟨d', hd', hmm⟩ := ih.mp hb
              exact ⟨d', Or.inr hd', hmm⟩
            · rintro ⟨d', hd' | hd', hmm⟩
              · subst hd'
                unfold manifestMatches at hmm
                rw [hm] at hmm
                cases hmm
              · exact ih.mpr ⟨d', hd', hmm⟩
        | some mf =>
            cases mf with
            | bad m =>
                rcases hr : set_plugin_enabled rest pid e with ⟨rest', b⟩
                rw [hr] at ih
                rw [set_plugin_enabled.eq_def]
                simp only [hm, hr, List.mem_cons]
                constructor
                · intro hb
                  obtain ⟨d', hd', hmm⟩ := ih.mp hb
                  exact ⟨d', Or.inr hd', hmm⟩
                · rintro ⟨d', hd' | hd', hmm⟩
                  · subst hd'
                    unfold manifestMatches at hmm
                    rw [hm] at hmm
                    cases hmm
                  · exact ih.mpr ⟨d', hd', hmm⟩
            | good kvs =>
                by_cases hid : pvEqStr (pyGet kvs "id") pid = true
                · rw [set_plugin_enabled.eq_def]
                  simp only [hm, hid, if_true]
                  constructor
                  · intro _
                    exact ⟨d, List.mem_cons_self d rest, by simp [manifestMatches, hm, hid]⟩
                  · intro _
                    trivial
                · rcases hr : set_plugin_enabled rest pid e with ⟨rest', b⟩
                  rw [hr] at ih
                  rw [set_plugin_enabled.eq_def]
                  simp only [hm]
                  rw [if_neg hid]
                  simp only [hr]
                  simp only [List.mem_cons]
                  constructor
                  · intro hb
                    obtain ⟨d', hd', hmm⟩ := ih.mp hb
                    exact ⟨d', Or.inr hd', hmm⟩
                  · rintro ⟨d', hd' | hd', hmm⟩
                    · subst hd'
                      unfold manifestMatches at hmm
                      rw [hm] at hmm
                      exact absurd hmm hid
                    · exact ih.mpr ⟨d', hd', hmm⟩
  · intro fs pid e
    exact set_plugin_enabled_false_id pid e fs
  · intro pre post d kvs pid e hpre hd hid
    induction pre with
    | nil =>
        simp only [List.nil_append]
        rw [set_plugin_enabled.eq_def]
        simp [hd, hid]
    | cons p ps ih =>
        have hp := hpre p (List.mem_cons_self p ps)
        have hps : ∀ d' ∈ ps, manifestMatches d' pid = false := fun d' hmem' =>
          hpre d' (List.mem_cons_of_mem p hmem')
        have ihr := ih hps
        rw [List.cons_append, set_plugin_enabled.eq_def]
        cases hm : p.manifest with
        | none => simp [hm, ihr]
        | some mf =>
            cases mf with
            | bad m => simp [hm, ihr]
            | good kvs' =>
                have hid' : pvEqStr (pyGet kvs' "id") pid = false := by
                  unfold manifestMatches at hp
                  rw [hm] at hp
                  exact hp
                simp [hm, hid', ihr]
  · intro st pid e
    rcases h : set_plugin_enabled st.fs pid e with ⟨fs', ok⟩
    constructor
    · simp [plugins_page_save, h]
    · simp [plugins_page_save, h]

/-- Closed instance of C8: flipping `p2` off rewrites only the second
directory's manifest, reports success, and leaves the in-memory registry
of the page state untouched. -/
theorem set_plugin_enabled_spec_witness :
    set_plugin_enabled
        [⟨"alpha", some (.good [("id", .str "p1"), ("enabled", .bool true)]), []⟩,
         ⟨"beta", some (.good [("id", .str "p2"), ("enabled", .bool true)]), []⟩]
        "p2" false
      = ([⟨"alpha", some (.good [("id", .str "p1"), ("enabled", .bool true)]), []⟩,
          ⟨"beta", some (.good [("id", .str "p2"), ("enabled", .bool false)]), []⟩], true)
    ∧ (plugins_page_save
        ⟨[⟨"alpha", some (.good [("id", .str "p1"), ("enabled", .bool true)]), []⟩],
         none⟩ "p2" false).1.registry = none := by
  constructor
  · have h := set_plugin_enabled_spec.2.2.1
      [⟨"alpha", some (.good [("id", .str "p1"), ("enabled", .bool true)]), []⟩]
      []
      ⟨"beta", some (.good [("id", .str "p2"), ("enabled", .bool true)]), []⟩
      [("id", .str "p2"), ("enabled", .bool true)] "p2" false
      (by
        intro d' hd'
        rw [List.mem_singleton] at hd'
        subst hd'
        rfl)
      rfl rfl
    exact h
  · exact (set_plugin_enabled_spec.2.2.2
      ⟨[⟨"alpha", some (.good [("id", .str "p1"), ("enabled", .bool true)]), []⟩],
       none⟩ "p2" false).1

/-- C7: for every tool-call dict whose `function` member is a dict (or
absent, defaulting to the empty dict — the shape the model contract of
the spec's §6 emits), `tool_call_to_message` returns, never raises, a
mapping with role `"tool"`, the call's `id` as `tool_call_id`, the called
function's name, and a JSON-serialized content; a string `arguments`
field that fails to parse as JSON degrades to the empty mapping, and an
exception from dispatching becomes a `{"status": "error", "message": ...}`
result inside `content` rather than escaping. -/
theorem tool_call_to_message_spec
    (loads : String → Except Unit PVal) (dumps : PVal → String)
    (parse : String → Except String PyExpr) (now : String)
    (tool_call : List (String × PVal)) (plugin_registry : Option Registry)
    (fkvs : List (String × PVal))
    (hfn : pyGetD tool_call "function" (.obj []) = .obj fkvs) :
    tool_call_to_message loads dumps parse now tool_call plugin_registry
      = .ok (.obj [("role", .str "tool"),
                   ("tool_call_id", pyGet tool_call "id"),
                   ("name", pyGetD fkvs "name" (.str "")),
                   ("content", .str (dumps (dispatchToolCall parse now
                     (pyGetD fkvs "name" (.str ""))
                     (parseToolArgs loads (pyGetD fkvs "arguments" (.str "{}")))
                     plugin_registry)))])
    ∧ (∀ s, loads s = .error () → parseToolArgs loads (.str s) = .obj [])
    ∧ (∀ nameV args m, run_tool parse now nameV args plugin_registry = .error m →
        dispatchToolCall parse now nameV args plugin_registry = errResult m) := by
  refine ⟨?_, ?_, ?_⟩
  · unfold tool_call_to_message
    rw [hfn]
    rfl
  · intro s hl
    unfold parseToolArgs
    simp [hl]
  · intro nameV args m hm
    unfold dispatchToolCall
    rw [hm]

/-- Closed instance of C7: an unknown tool with unparseable string
arguments still yields a well-formed tool-role entry whose content holds
the serialized error result. -/
theorem tool_call_to_message_spec_witness :
    tool_call_to_message (fun _ => .error ()) (fun _ => "SERIALIZED")
        pyParseFix "T"
        [("id", .str "call-1"),
         ("function", .obj [("name", .str "teleport"),
                            ("arguments", .str "not json")])]
        none
      = .ok (.obj [("role", .str "tool"),
                   ("tool_call_id", .str "call-1"),
                   ("name", .str "teleport"),
                   ("content", .str "SERIALIZED")]) := by
  have h := tool_call_to_message_spec (fun _ => .error ()) (fun _ => "SERIALIZED")
    pyParseFix "T"
    [("id", .str "call-1"),
     ("function", .obj [("name", .str "teleport"),
                        ("arguments", .str "not json")])]
    none
    [("name", .str "teleport"), ("arguments", .str "not json")]
    rfl
  exact h.1

/-- C1: when a chat-completion request sent with a non-empty tools payload
raises a provider error whose text contains `"tools"` or `"tool_choice"`,
the request is retried exactly once, immediately, with `tools` and
`tool_choice` set to `None` (the retry's outcome, success or failure, is
returned as-is), and the selected model is appended to the session's
unsupported-models list unless already present — after which tool
selection on every subsequent turn of the session yields no tools payload
for that model; a provider error not containing either substring
propagates unchanged, with no retry and no blacklist change. -/
theorem chat_completion_retry_spec {R : Type}
    (provider : Option (List PVal) → Option PVal → Except String R)
    (selected_model : String) (unsupported : List String)
    (ts : List PVal) (tool_choice : Option PVal) :
    (∀ msg, provider (some ts) tool_choice = .error msg →
      ts ≠ [] →
      (pyInStr "tool_choice" msg || pyInStr "tools" msg) = true →
      chat_completion_request provider selected_model unsupported
          (some ts) tool_choice
        = ((provider none none).map (fun r => (r, true)),
           if unsupported.contains selected_model then unsupported
           else unsupported ++ [selected_model])
      ∧ selected_model ∈ (chat_completion_request provider selected_model
          unsupported (some ts) tool_choice).2
      ∧ (∀ (enable_tools : Bool) (reg : Option Registry),
          select_tools_payload enable_tools
            (chat_completion_request provider selected_model unsupported
              (some ts) tool_choice).2 selected_model reg = none
          ∨ enable_tools = false))
    ∧ (∀ msg, provider (some ts) tool_choice = .error msg →
        (pyInStr "tool_choice" msg || pyInStr "tools" msg) = false →
        chat_completion_request provider selected_model unsupported
            (some ts) tool_choice
          = (.error msg, unsupported)) := by
  constructor
  · intro msg herr hne hsub
    have htruthy : toolsTruthy (some ts) = true := by
      simp [toolsTruthy, hne]
    have hmain : chat_completion_request provider selected_model unsupported
        (some ts) tool_choice
        = ((provider none none).map (fun r => (r, true)),
           if unsupported.contains selected_model then unsupported
           else unsupported ++ [selected_model]) := by
      unfold chat_completion_request
      rw [herr]
      simp [htruthy, hsub]
    have hmem : selected_model ∈ (chat_completion_request provider
        selected_model unsupported (some ts) tool_choice).2 := by
      rw [hmain]
      by_cases hc : unsupported.contains selected_model = true
      · rw [if_pos hc]
        exact List.mem_of_elem_eq_true hc
      · rw [if_neg hc]
        exact List.mem_append_right _ (List.mem_singleton_self _)
    refine ⟨hmain, hmem, ?_⟩
    intro enable_tools reg
    cases het : enable_tools with
    | false => exact Or.inr rfl
    | true =>
        left
        unfold select_tools_payload
        have hc2 : (true && ((chat_completion_request provider selected_model
            unsupported (some ts) tool_choice).2).contains selected_model) = true := by
          simp only [Bool.true_and]
          exact List.elem_eq_true_of_mem hmem
        rw [if_pos hc2]
  · intro msg herr hsub
    unfold chat_completion_request
    rw [herr]
    simp [hsub]

/-- Closed instance of C1: a provider that rejects tools with a message
mentioning `tool_choice` triggers exactly one immediate no-tools retry
(which succeeds here), blacklists the model, and the next turn's tool
selection attaches no tools for it; an unrelated error propagates with
the blacklist untouched. -/
theorem chat_completion_retry_spec_witness :
    chat_completion_request
        (fun t _ => match t with
          | some _ => .error "Provider rejects tool_choice parameter"
          | none => (.ok 7 : Except String Nat))
        "model-a" [] (some [.null]) none
      = (.ok (7, true), ["model-a"])
    ∧ select_tools_payload true ["model-a"] "model-a" none = none
    ∧ chat_completion_request
        (fun t _ => match t with
          | some _ => .error "429 rate limited"
          | none => (.ok 7 : Except String Nat))
        "model-a" [] (some [.null]) none
      = (.error "429 rate limited", []) := by
  refine ⟨?_, ?_, ?_⟩
  · have h := (chat_completion_retry_spec
      (fun t _ => match t with
        | some _ => .error "Provider rejects tool_choice parameter"
        | none => (.ok 7 : Except String Nat))
      "model-a" [] [.null] none).1
      "Provider rejects tool_choice parameter" rfl (by simp) (by decide)
    exact h.1
  · rfl
  · exact (chat_completion_retry_spec
      (fun t _ => match t with
        | some _ => .error "429 rate limited"
        | none => (.ok 7 : Except String Nat))
      "model-a" [] [.null] none).2 "429 rate limited" rfl (by decide)

theorem filterMap_guard_sublist {α β : Type} (f : α → β) (p : α → Bool)
    (l : List α) :
    (l.filterMap fun x => if p x then some (f x) else none).Sublist (l.map f) := by
  induction l with
  | nil => simp
  | cons x xs ih =>
      by_cases hp : p x = true
      · simp only [List.filterMap_cons, hp, if_true, List.map_cons]
        exact List.Sublist.cons₂ _ ih
      · simp only [List.filterMap_cons, hp, if_false, List.map_cons]
        exact List.Sublist.cons _ ih

/-- C3 counterexample: in `"10 yen and euro please"` the currencies appear
in text order yen-then-euro, but the fallback pairs them in the fixed
mapping order (EUR before JPY), so the claimed left-to-right base/target
assignment is violated: the extraction returns base `EUR`, target `JPY`,
not base `JPY`, target `EUR`. -/
theorem extract_rate_text_order_counterexample :
    extract_rate_from_text "10 yen and euro please" = some ("EUR", "JPY", 10)
    ∧ codesByTextOrder "10 yen and euro please" = ["JPY", "EUR"] := by
  set_option maxRecDepth 4000 in decide

/-- C3 (amended): when none of the explicit patterns claims the message
but a bare amount and at least two recognized currency mentions exist,
the fallback returns the first two codes of the *fixed mapping order*
(USD, EUR, RUB, GBP, JPY, CNY, CHF, CAD, AUD — a subsequence of that
order, not left-to-right text order) as base and target, with the first
numeric match as amount. -/
theorem extract_rate_fallback_spec :
    (∀ (text : String) (a : Rat) (c1 c2 : String) (rest : List String),
      rateStepRu (pyLower text) = none →
      rateStepEn (pyLower text) = none →
      rateStepConv (pyLower text) = none →
      rateAmount (pyLower text) = some a →
      codesFound (pyLower text) = c1 :: c2 :: rest →
      extract_rate_from_text text = some (c1, c2, a))
    ∧ (∀ lower : String,
        (codesFound lower).Sublist (currencyMapping.map Prod.fst)) := by
  constructor
  · intro text a c1 c2 rest h1 h2 h3 h4 h5
    simp only [extract_rate_from_text, h1, h2, h3, h4, h5]
  · intro lower
    exact filterMap_guard_sublist Prod.fst _ currencyMapping

/-- Closed instance of C3's amended fallback on a message with no
pattern keywords: amount 10 with mentions of euro and bucks yields
`(USD, EUR, 10)` (mapping order puts USD first although "euro" appears
first in the text). -/
theorem extract_rate_fallback_spec_witness :
    extract_rate_from_text "pay 10 euro with bucks" = some ("USD", "EUR", 10) :=
  extract_rate_fallback_spec.1 "pay 10 euro with bucks" 10 "USD" "EUR" []
    (by set_option maxRecDepth 4000 in decide)
    (by set_option maxRecDepth 4000 in decide)
    (by set_option maxRecDepth 4000 in decide)
    (by set_option maxRecDepth 4000 in decide)
    (by set_option maxRecDepth 4000 in decide)
